import Mathlib

/-!
Verification development for the IsoFlux quasi-isothermal heat-balance
calorimetry program.

This file gives a shallow embedding of the numerical core of the program
(`uli_physik.py`, `isoflux_sensors.py`, `isoflux.py`, `isoflux_mqtt.py`,
`isoflux_application.py`) over the real numbers, and proves or refutes the
stated properties of the specification against it.

Modelling conventions:
* Python floats are idealised as real numbers `ℝ`.
* Python's `ZeroDivisionError` is made explicit where a claim depends on it,
  via `Option`-valued checked variants (`wheatstone_checked`, the pulse-flow
  estimator); elsewhere real-number division (with the Lean convention
  `x / 0 = 0`) is used and theorems carry nonzero-denominator facts where
  they matter.
* Mutable attributes become fields of explicit state structures, and
  mutating methods become state-passing functions.
-/

namespace IsoFlux

/-- `uli_physik.wheatstone`: unknown resistance of the measurement bridge leg,
`rs1 * (u0 + ud) / (u0*nref - ud)`. -/
noncomputable def wheatstone (ud u0 nref rs1 : ℝ) : ℝ :=
  rs1 * (u0 + ud) / (u0 * nref - ud)

/-- Checked variant of `wheatstone`: Python raises `ZeroDivisionError` when
the denominator `u0*nref - ud` is zero; we model that outcome as `none`. -/
noncomputable def wheatstone_checked (ud u0 nref rs1 : ℝ) : Option ℝ :=
  if u0 * nref - ud = 0 then none else some (wheatstone ud u0 nref rs1)

/-- Constant `PT_A` of `uli_physik.ptRTD_temperature`. -/
noncomputable def PT_A : ℝ := 3.9083e-3

/-- Constant `PT_B` of `uli_physik.ptRTD_temperature`. -/
noncomputable def PT_B : ℝ := -5.775e-7

/-- The fifth-order correction polynomial of `uli_physik.ptRTD_temperature`
(`np.poly1d` with the six fixed coefficients, highest power first),
evaluated in Horner form. -/
noncomputable def correction (x : ℝ) : ℝ :=
  ((((1.51892983e+00 * x + -2.85842067e+00) * x + -5.34227299e+00) * x
      + 1.80282972e+01) * x + -1.61875985e+01) * x + 4.84112370e+00

/-- The uncorrected quadratic solution `theta` computed by
`uli_physik.ptRTD_temperature` (exact for non-negative temperatures):
`(-PT_A + sqrt (PT_A^2 - 4*PT_B*(1 - r_x/r_0))) / (2*PT_B)`. -/
noncomputable def ptRTD_quadratic (r_x r_0 : ℝ) : ℝ :=
  (- PT_A + Real.sqrt (PT_A ^ 2 - 4 * PT_B * (1 - r_x / r_0))) / (2 * PT_B)

/-- `uli_physik.ptRTD_temperature`: quadratic inversion of the Callendar
polynomial, with the polynomial correction term added on the
negative-temperature branch `r_norm < 1`. -/
noncomputable def ptRTD_temperature (r_x r_0 : ℝ) : ℝ :=
  if r_x / r_0 < 1 then ptRTD_quadratic r_x r_0 + correction (r_x / r_0)
  else ptRTD_quadratic r_x r_0

/-- One `isoflux_sensors.Measurement` unit: the per-channel configuration data
and the mutable calibration offsets, as read in `Measurement.__init__`.
Fields indexed `[0]`/`[1]` in the source (upstream/downstream sensor of the
pair) become pairs, projected with `.1`/`.2`.  `c_th` is the configured
specific-heat function `c_th_function`. -/
structure Meas where
  N_REF : ℝ
  R_S : ℝ × ℝ
  r_0 : ℝ × ℝ
  r_offset : ℝ × ℝ
  T_offset : ℝ
  p_offset : ℝ
  c_th : ℝ → ℝ

/-- The averaged, offset-corrected readings `ch_unscaled` of one acquisition:
`.1` = resistance-reference absolute reading (`ch_unscaled[0]`),
`.2.1` = upstream differential reading (`ch_unscaled[1]`),
`.2.2` = downstream-vs-upstream differential reading (`ch_unscaled[2]`). -/
def ChData : Type := ℝ × ℝ × ℝ

/-- Local `r_upstream_w_offset` of `Measurement.scan_temperatures`: upstream
bridge resistance before the trim offset is subtracted. -/
noncomputable def scan_r_upstream_w_offset (m : Meas) (ch : ChData) : ℝ :=
  wheatstone ch.2.1 ch.1 m.N_REF m.R_S.1

/-- `self.r_upstream` as set by `Measurement.scan_temperatures`. -/
noncomputable def scan_r_upstream (m : Meas) (ch : ChData) : ℝ :=
  scan_r_upstream_w_offset m ch - m.r_offset.1

/-- `self.r_downstream` as set by `Measurement.scan_temperatures`: the
downstream sensor uses the upstream sensor as reference bridge leg. -/
noncomputable def scan_r_downstream (m : Meas) (ch : ChData) : ℝ :=
  wheatstone ch.2.2 (ch.2.1 + ch.1)
    (m.R_S.1 / scan_r_upstream_w_offset m ch) m.R_S.2 - m.r_offset.2

/-- `self.T_upstream` as set by `Measurement.scan_temperatures`. -/
noncomputable def scan_T_upstream (m : Meas) (ch : ChData) : ℝ :=
  ptRTD_temperature (scan_r_upstream m ch) m.r_0.1

/-- `self.T_downstream` as set by `Measurement.scan_temperatures`
(temperature trim offset subtracted after conversion). -/
noncomputable def scan_T_downstream (m : Meas) (ch : ChData) : ℝ :=
  ptRTD_temperature (scan_r_downstream m ch) m.r_0.2 - m.T_offset

/-- `Measurement.calculate_power`: thermal power by heat balance, taking the
temperatures stored by the preceding `scan_temperatures` call.  The program
runs under Python 2 (`raw_input` in the application module, no `__future__`
division import), so in `1/2 * (self.T_upstream+self.T_downstream)` the
literal quotient `1/2` is integer floor division, i.e. `0`: the
specific-heat function is evaluated at `0.0`, not at the mean temperature.
The integer quotient is embedded as such. -/
noncomputable def calculate_power (m : Meas) (T_upstream T_downstream flow_kg_sec : ℝ) : ℝ :=
  flow_kg_sec * m.c_th (((1 / 2 : ℤ) : ℝ) * (T_upstream + T_downstream))
    * (T_downstream - T_upstream) - m.p_offset

/-- One scan-then-power cycle of a single `Measurement` on averaged input
data `ch` and mass flow `flow`: `scan_temperatures` followed by
`calculate_power`, as driven by `IsoFlux.scan_all`. -/
noncomputable def cyclePower (m : Meas) (ch : ChData) (flow : ℝ) : ℝ :=
  calculate_power m (scan_T_upstream m ch) (scan_T_downstream m ch) flow

/-- Mutable state of `isoflux_sensors.Flow_sensor` (pulse-timing strategy):
pulse tally `n_imp`, first/last edge timestamps `t_0`/`t_1` (microsecond
ticks), period start `start_time`, stored result `stored_liter_sec`, and the
configured constants `AVG_PERIOD` and `SENSITIVITY`. -/
structure FlowState where
  n_imp : ℕ
  t_0 : ℝ
  t_1 : ℝ
  start_time : ℝ
  stored_liter_sec : ℝ
  AVG_PERIOD : ℝ
  SENSITIVITY : ℝ

/-- The `Flow_sensor.liter_sec` property read at wall-clock time `t`:
returns the produced value together with the updated sensor state.  The
value is `none` exactly when Python would raise `ZeroDivisionError`, i.e.
when the pulse-processing branch is reached with a zero divisor. -/
noncomputable def liter_sec (fs : FlowState) (t : ℝ) : Option ℝ × FlowState :=
  if t - fs.start_time < fs.AVG_PERIOD then
    (some fs.stored_liter_sec, fs)
  else
    -- `self._start_time = t` happens before the pulse tally is inspected
    let fs1 := { fs with start_time := t }
    if fs.n_imp = 0 then
      (some 0, fs1)
    else if fs.SENSITIVITY * (fs.t_1 - fs.t_0) = 0 then
      (none, fs1)
    else
      let v := 1e6 * (fs.n_imp : ℝ) / (fs.SENSITIVITY * (fs.t_1 - fs.t_0))
      (some v, { fs1 with stored_liter_sec := v, n_imp := 0 })

/-- Published aggregate state of `isoflux.IsoFlux`: the Measurement units and
the channel-indexed result vectors (index 0 is the coolant influx point). -/
structure State where
  measurements : List Meas
  resistance : List ℝ
  temperature : List ℝ
  power : List ℝ
  p_offset : List ℝ

/-- Adjacent upstream/downstream sensor pairs
(`[self.flow_sequence[n-1:n+1] for n in range(1, self.n_ch)]`). -/
def pt_pairs {α : Type} (seq : List α) : List (α × α) :=
  seq.zip seq.tail

/-- `IsoFlux.__init__` for a configured flow sequence `seq`: one Measurement
per adjacent sensor pair (built by `mkM`, standing for
`Measurement(conf.CH_CONF, pt_pair)`), and zero-initialised result vectors of
length `len(flow_sequence)`. -/
noncomputable def State.init {α : Type} (mkM : α × α → Meas) (seq : List α) : State where
  measurements := (pt_pairs seq).map mkM
  resistance := List.replicate seq.length 0
  temperature := List.replicate seq.length 0
  power := List.replicate seq.length 0
  p_offset := List.replicate seq.length 0

/-- Body of the `IsoFlux.scan_all` loop for the measurement at position `i`:
scan temperatures, store the influx-channel values when `i = 0`, compute
power with the measurement's current power offset, store the downstream
results at index `i + 1`, then refresh the measurement's power offset from
`self.p_offset[i + 1]`. -/
noncomputable def scan_step (st : State) (i : ℕ) (m : Meas) (ch : ChData) (flow : ℝ) :
    State × Meas :=
  let st1 :=
    if i = 0 then
      { st with resistance := st.resistance.set 0 (scan_r_upstream m ch),
                temperature := st.temperature.set 0 (scan_T_upstream m ch) }
    else st
  let p := cyclePower m ch flow
  let st2 :=
    { st1 with resistance := st1.resistance.set (i + 1) (scan_r_downstream m ch),
               temperature := st1.temperature.set (i + 1) (scan_T_downstream m ch),
               power := st1.power.set (i + 1) p }
  (st2, { m with p_offset := st.p_offset.getD (i + 1) 0 })

/-- The `IsoFlux.scan_all` loop over the remaining measurements `ms`,
starting at position `i`; `chs`/`flows` give the averaged input data and the
gravimetric flow value seen by each loop iteration. -/
noncomputable def scan_all_aux (st : State) (i : ℕ) (ms : List Meas)
    (chs : ℕ → ChData) (flows : ℕ → ℝ) : State × List Meas :=
  match ms with
  | [] => (st, [])
  | m :: rest =>
    let sm := scan_step st i m (chs i) (flows i)
    let srest := scan_all_aux sm.1 (i + 1) rest chs flows
    (srest.1, sm.2 :: srest.2)

/-- `IsoFlux.scan_all`: one full acquisition pass over all measurements, with
arbitrary per-iteration input samples and flow values. -/
noncomputable def scan_all (st : State) (chs : ℕ → ChData) (flows : ℕ → ℝ) : State :=
  let s := scan_all_aux st 0 st.measurements chs flows
  { s.1 with measurements := s.2 }

/-- `IFX_MQTT.tare_channel`: raises `IndexError` (returning the state
unchanged) unless `0 < ch < len(p_offset)`, otherwise adds the channel's
current power reading to its power offset. -/
noncomputable def tareRun (st : State) (ch : ℤ) : State × Option String :=
  if ¬ (0 < ch ∧ ch < (st.p_offset.length : ℤ)) then
    (st, some "Channel number out of range")
  else
    let j := ch.toNat
    let updated := st.p_offset.set j (st.p_offset.getD j 0 + st.power.getD j 0)
    ({ st with p_offset := updated }, none)

/-- `IFX_MQTT.set_offset`: raises `IndexError` (returning the state
unchanged) unless `0 <= ch < len(p_offset)`, otherwise overwrites the
channel's power offset. -/
noncomputable def set_offsetRun (st : State) (ch : ℤ) (new_offset : ℝ) :
    State × Option String :=
  if ¬ (0 ≤ ch ∧ ch < (st.p_offset.length : ℤ)) then
    (st, some "Channel number out of range")
  else
    ({ st with p_offset := st.p_offset.set ch.toNat new_offset }, none)

/-- States of the aggregate reachable from construction by acquisition
passes and remote calibration commands, for arbitrary input samples. -/
inductive Reachable {α : Type} (mkM : α × α → Meas) (seq : List α) : State → Prop
  | init : Reachable mkM seq (State.init mkM seq)
  | scan (st : State) (chs : ℕ → ChData) (flows : ℕ → ℝ) :
      Reachable mkM seq st → Reachable mkM seq (scan_all st chs flows)
  | tare (st : State) (ch : ℤ) :
      Reachable mkM seq st → Reachable mkM seq (tareRun st ch).1
  | set_off (st : State) (ch : ℤ) (v : ℝ) :
      Reachable mkM seq st → Reachable mkM seq (set_offsetRun st ch v).1

/-- Concrete measurement used to exhibit states of the zero-all operation. -/
noncomputable def m_static : Meas :=
  { N_REF := 1, R_S := (1, 1), r_0 := (1, 1), r_offset := (0, 0),
    T_offset := 0, p_offset := 1, c_th := fun _ => 0 }

/-- `m_static` with its power offset at the initial value `0.0`. -/
noncomputable def m_zeroed : Meas := { m_static with p_offset := 0 }

/-- Concrete flow-sensor state: no pulses counted, coincident edge
timestamps (so the elapsed-time divisor would be zero if evaluated). -/
noncomputable def fs_idle : FlowState :=
  { n_imp := 0, t_0 := 0, t_1 := 0, start_time := 0, stored_liter_sec := 0,
    AVG_PERIOD := 1, SENSITIVITY := 0 }

/-- Concrete aggregate state with three configured channels. -/
noncomputable def st_demo : State :=
  { measurements := [], resistance := [0, 0, 0], temperature := [0, 0, 0],
    power := [0, 0, 0], p_offset := [0, 0, 0] }

/-- Concrete Measurement constructor for a three-channel flow sequence. -/
noncomputable def mkM_demo : ℕ × ℕ → Meas := fun _ => m_zeroed

end IsoFlux

namespace IsoFlux

/-- C7 counterexample: with the differential reading `ud = 0` but `u0 = 0`,
the bridge denominator `u0*nref - ud` is zero and `wheatstone` raises
`ZeroDivisionError` instead of returning `rs1/nref`; the balanced-bridge
identity is not independent of `u0`. -/
theorem wheatstone_balanced_counterexample :
    wheatstone_checked 0 0 1 1 ≠ some ((1 : ℝ) / 1) := by
  unfold wheatstone_checked
  norm_num
  exact fun h => Option.noConfusion h

/-- C7 (amended): for every `u0 ≠ 0` and `nref ≠ 0`,
`wheatstone(ud=0, u0, nref, rs1)` returns exactly `rs1/nref`,
independent of the particular nonzero value of `u0`. -/
theorem wheatstone_balanced (u0 nref rs1 : ℝ) (hu : u0 ≠ 0) (hn : nref ≠ 0) :
    wheatstone_checked 0 u0 nref rs1 = some (rs1 / nref) := by
  have hd : ¬ (u0 * nref - 0 = 0) := by
    simpa using mul_ne_zero hu hn
  unfold wheatstone_checked wheatstone
  rw [if_neg hd]
  congr 1
  field_simp
  ring

/-- Witness for `wheatstone_balanced` at `u0 = 2`, `nref = 4`, `rs1 = 5`. -/
theorem wheatstone_balanced_witness :
    (2 : ℝ) ≠ 0 ∧ (4 : ℝ) ≠ 0 ∧ wheatstone_checked 0 2 4 5 = some ((5 : ℝ) / 4) :=
  ⟨by norm_num, by norm_num, wheatstone_balanced 2 4 5 (by norm_num) (by norm_num)⟩

/-- C5: for every `r_0 > 0`, at resistance ratio exactly 1 (`r_x = r_0`) the
RTD converter returns exactly 0 °C (hence 0 within 1e-6), and the
negative-temperature branch condition `r_norm < 1` is false, so the
non-negative-temperature quadratic branch is taken. -/
theorem ptRTD_at_base_resistance (r_0 : ℝ) (h : 0 < r_0) :
    ptRTD_temperature r_0 r_0 = 0 ∧ ¬ (r_0 / r_0 < 1)
    ∧ |ptRTD_temperature r_0 r_0| ≤ 1e-6 := by
  have hr : r_0 / r_0 = 1 := div_self (ne_of_gt h)
  have hq : ptRTD_quadratic r_0 r_0 = 0 := by
    unfold ptRTD_quadratic
    rw [hr]
    have hdisc : PT_A ^ 2 - 4 * PT_B * (1 - 1) = PT_A ^ 2 := by ring
    rw [hdisc, Real.sqrt_sq (by norm_num [PT_A] : (0 : ℝ) ≤ PT_A)]
    ring
  have hbranch : ¬ (r_0 / r_0 < 1) := by rw [hr]; exact lt_irrefl 1
  have hval : ptRTD_temperature r_0 r_0 = 0 := by
    unfold ptRTD_temperature
    rw [if_neg hbranch, hq]
  exact ⟨hval, hbranch, by rw [hval]; norm_num⟩

/-- Witness for `ptRTD_at_base_resistance` at `r_0 = 1000` (the Pt1000 base
calibration value). -/
theorem ptRTD_at_base_resistance_witness :
    (0 : ℝ) < 1000
    ∧ (ptRTD_temperature 1000 1000 = 0 ∧ ¬ ((1000 : ℝ) / 1000 < 1)
       ∧ |ptRTD_temperature 1000 1000| ≤ 1e-6) :=
  ⟨by norm_num, ptRTD_at_base_resistance 1000 (by norm_num)⟩

/-- The corrected result at `r_norm = 0.9` differs from the uncorrected
quadratic root by exactly the correction polynomial at `0.9`. -/
theorem ptRTD_diff_at_0p9 :
    ptRTD_temperature 900 1000 - ptRTD_quadratic 900 1000
      = correction (900 / 1000) := by
  unfold ptRTD_temperature
  rw [if_pos (by norm_num : (900 : ℝ) / 1000 < 1)]
  ring

/-- C6 counterexample: at `r_norm = 0.9` the negative-temperature corrected
result differs from the uncorrected quadratic root by the value of the
correction polynomial, about 0.00219 °C — NOT more than 0.01 °C. -/
theorem correction_at_0p9_counterexample :
    ¬ (|ptRTD_temperature 900 1000 - ptRTD_quadratic 900 1000| > 1e-2) := by
  rw [not_lt, ptRTD_diff_at_0p9, abs_le]
  constructor <;> (unfold correction; norm_num)

/-- C6 (amended): the negative-temperature correction is active and
non-trivial at `r_norm = 0.9`: the corrected result differs from the
uncorrected quadratic root by more than 0.002 °C (though not by more
than 0.01 °C). -/
theorem correction_at_0p9 :
    |ptRTD_temperature 900 1000 - ptRTD_quadratic 900 1000| > 2e-3 := by
  rw [ptRTD_diff_at_0p9]
  have hpos : correction ((900 : ℝ) / 1000) > 2e-3 := by
    unfold correction; norm_num
  exact lt_of_lt_of_le hpos (le_abs_self _)

/-- C1: the downstream RTD resistance is the same bridge formula with
differential input the downstream-vs-upstream reading `ch_unscaled[2]`,
absolute input the sum `ch_unscaled[1] + ch_unscaled[0]`, and reference
ratio `R_S[0]` divided by the upstream resistance before trim subtraction
(recovered as `r_upstream + r_offset[0]`); both resistance trim offsets act
purely subtractively after the bridge formula: the downstream result is
affine in `r_offset[1]` and the upstream result affine in `r_offset[0]`. -/
theorem downstream_bridge_formula (m : Meas) (ch : ChData) :
    scan_r_downstream m ch
      = wheatstone ch.2.2 (ch.2.1 + ch.1)
          (m.R_S.1 / (scan_r_upstream m ch + m.r_offset.1)) m.R_S.2
        - m.r_offset.2
    ∧ (∀ x : ℝ, scan_r_downstream { m with r_offset := (m.r_offset.1, x) } ch
        = scan_r_downstream { m with r_offset := (m.r_offset.1, 0) } ch - x)
    ∧ (∀ x : ℝ, scan_r_upstream { m with r_offset := (x, m.r_offset.2) } ch
        = scan_r_upstream { m with r_offset := (0, m.r_offset.2) } ch - x) := by
  refine ⟨?_, ?_, ?_⟩
  · have hpre : scan_r_upstream m ch + m.r_offset.1 = scan_r_upstream_w_offset m ch := by
      unfold scan_r_upstream; ring
    rw [hpre]
    rfl
  · intro x
    obtain ⟨N, RS, r0, roff, To, po, cth⟩ := m
    unfold scan_r_downstream scan_r_upstream_w_offset
    dsimp
    ring
  · intro x
    obtain ⟨N, RS, r0, roff, To, po, cth⟩ := m
    unfold scan_r_upstream scan_r_upstream_w_offset
    dsimp
    ring

/-- Concrete measurement whose specific-heat function is the identity,
separating the temperature the code evaluates `c_th` at from the mean
coolant temperature. -/
noncomputable def m_id : Meas :=
  { N_REF := 1, R_S := (1, 1), r_0 := (1, 1), r_offset := (0, 0),
    T_offset := 0, p_offset := 0, c_th := fun x => x }

/-- C3: the claimed formula
`flow × c_th((T_up + T_down)/2) × (T_down − T_up) − p_offset` is the evident
intent, but the code computes `c_th(1/2 * (T_up+T_down))` under Python 2,
where `1/2 = 0`: the specific heat is always evaluated at `0.0` °C, never at
the mean temperature.  At `c_th = id`, `T_up = 10`, `T_down = 30`,
`flow = 1`, `p_offset = 0` the code yields power `0` while the claimed
formula yields `400`. -/
theorem calculate_power_mean_divergence :
    calculate_power m_id 10 30 1 = 0
    ∧ (1 : ℝ) * m_id.c_th ((10 + 30) / 2) * (30 - 10) - m_id.p_offset = 400 := by
  constructor
  · unfold calculate_power
    norm_num [m_id]
  · norm_num [m_id]

/-- C8: whenever the averaging period has elapsed and zero pulses were
counted, `liter_sec` returns exactly 0.0 (only the period start is reset);
the elapsed-time division is never evaluated on this path — in particular no
`ZeroDivisionError` (`none`) is possible, even with coincident edge
timestamps. -/
theorem liter_sec_zero_pulses (fs : FlowState) (t : ℝ)
    (h0 : fs.n_imp = 0) (h1 : ¬ (t - fs.start_time < fs.AVG_PERIOD)) :
    liter_sec fs t = (some 0, { fs with start_time := t }) := by
  unfold liter_sec
  rw [if_neg h1]
  show (if fs.n_imp = 0 then _ else _) = _
  rw [if_pos h0]

/-- Witness for `liter_sec_zero_pulses` on `fs_idle` (whose stored edge
timestamps coincide, so the skipped divisor is in fact zero). -/
theorem liter_sec_zero_pulses_witness :
    fs_idle.n_imp = 0 ∧ ¬ ((2 : ℝ) - fs_idle.start_time < fs_idle.AVG_PERIOD)
    ∧ liter_sec fs_idle 2 = (some 0, { fs_idle with start_time := 2 }) := by
  have h1 : ¬ ((2 : ℝ) - fs_idle.start_time < fs_idle.AVG_PERIOD) := by
    show ¬ ((2 : ℝ) - 0 < 1)
    norm_num
  exact ⟨rfl, h1, liter_sec_zero_pulses fs_idle 2 rfl h1⟩

/-- C9: a tare command with an out-of-range channel index fails with the
index error and returns the power-offset vector (indeed the whole state)
unchanged: the range check precedes any mutation. -/
theorem tare_out_of_range (st : State) (ch : ℤ)
    (h : ¬ (0 ≤ ch ∧ ch < (st.p_offset.length : ℤ))) :
    tareRun st ch = (st, some "Channel number out of range") := by
  have hg : ¬ (0 < ch ∧ ch < (st.p_offset.length : ℤ)) :=
    fun hc => h ⟨le_of_lt hc.1, hc.2⟩
  unfold tareRun
  rw [if_pos hg]

/-- Witness for `tare_out_of_range`: channel index 99 against the
three-channel state `st_demo`. -/
theorem tare_out_of_range_witness :
    ¬ (0 ≤ (99 : ℤ) ∧ (99 : ℤ) < (st_demo.p_offset.length : ℤ))
    ∧ tareRun st_demo 99 = (st_demo, some "Channel number out of range") := by
  have h : ¬ (0 ≤ (99 : ℤ) ∧ (99 : ℤ) < (st_demo.p_offset.length : ℤ)) := by
    show ¬ (0 ≤ (99 : ℤ) ∧ (99 : ℤ) < ((3 : ℕ) : ℤ))
    decide
  exact ⟨h, tare_out_of_range st_demo 99 h⟩

/-- C10: the two remote calibration commands treat channel index 0
asymmetrically: tare-single rejects index 0 (strict lower bound `0 < ch`)
leaving every offset unchanged, while set-offset accepts index 0 (lower
bound `0 <= ch`) and overwrites the influx channel's power offset. -/
theorem tare_set_offset_index0 (st : State) (v : ℝ)
    (h : 0 < st.p_offset.length) :
    tareRun st 0 = (st, some "Channel number out of range")
    ∧ set_offsetRun st 0 v = ({ st with p_offset := st.p_offset.set 0 v }, none) := by
  constructor
  · unfold tareRun
    rw [if_pos (fun hc => absurd hc.1 (lt_irrefl 0))]
  · have hin : ¬ ¬ ((0 : ℤ) ≤ 0 ∧ (0 : ℤ) < (st.p_offset.length : ℤ)) :=
      not_not_intro ⟨le_refl 0, by exact_mod_cast h⟩
    unfold set_offsetRun
    rw [if_neg hin]
    rfl

/-- Witness for `tare_set_offset_index0` on the three-channel state
`st_demo` with new offset value `2.5`. -/
theorem tare_set_offset_index0_witness :
    0 < st_demo.p_offset.length
    ∧ (tareRun st_demo 0 = (st_demo, some "Channel number out of range")
       ∧ set_offsetRun st_demo 0 2.5
           = ({ st_demo with p_offset := st_demo.p_offset.set 0 2.5 }, none)) := by
  have h : 0 < st_demo.p_offset.length := by
    show 0 < 3
    norm_num
  exact ⟨h, tare_set_offset_index0 st_demo 2.5 h⟩

/-- One scan-loop iteration writes power only at index `i + 1`, never at
index 0. -/
theorem scan_step_power_getElem0 (st : State) (i : ℕ) (m : Meas) (ch : ChData)
    (flow : ℝ) : ((scan_step st i m ch flow).1).power[0]? = st.power[0]? := by
  unfold scan_step
  dsimp only
  rw [List.getElem?_set_ne (Nat.succ_ne_zero i)]
  split <;> rfl

/-- The scan loop over any tail of the measurement list leaves power index 0
untouched. -/
theorem scan_all_aux_power_getElem0 (ms : List Meas) :
    ∀ (st : State) (i : ℕ) (chs : ℕ → ChData) (flows : ℕ → ℝ),
      ((scan_all_aux st i ms chs flows).1).power[0]? = st.power[0]? := by
  induction ms with
  | nil => intro st i chs flows; rfl
  | cons m rest ih =>
    intro st i chs flows
    unfold scan_all_aux
    dsimp only
    rw [ih, scan_step_power_getElem0]

/-- A full acquisition pass never writes power index 0, whatever the input
samples and flow values. -/
theorem scan_all_power_getElem0 (st : State) (chs : ℕ → ChData)
    (flows : ℕ → ℝ) : (scan_all st chs flows).power[0]? = st.power[0]? := by
  unfold scan_all
  dsimp only
  rw [scan_all_aux_power_getElem0]

/-- A tare command never touches the power vector. -/
theorem tareRun_fst_power (st : State) (ch : ℤ) :
    ((tareRun st ch).1).power = st.power := by
  unfold tareRun
  split <;> rfl

/-- A set-offset command never touches the power vector. -/
theorem set_offsetRun_fst_power (st : State) (ch : ℤ) (v : ℝ) :
    ((set_offsetRun st ch v).1).power = st.power := by
  unfold set_offsetRun
  split <;> rfl

/-- At construction the power vector is all zeros, in particular at index 0. -/
theorem init_power_getElem0 {α : Type} (mkM : α × α → Meas) (seq : List α)
    (h : 0 < seq.length) : (State.init mkM seq).power[0]? = some (0 : ℝ) := by
  show (List.replicate seq.length (0 : ℝ))[0]? = some 0
  simp [List.getElem?_replicate, h]

/-- C4: for a flow sequence of length `N ≥ 2`, construction yields exactly
`N − 1` Measurement units and `N`-element resistance, temperature and power
vectors, and in every reachable state (construction followed by any sequence
of acquisition passes on arbitrary input samples and remote calibration
commands) element 0 of the power vector equals 0.0. -/
theorem isoflux_channel_invariants {α : Type} (mkM : α × α → Meas)
    (seq : List α) (h2 : 2 ≤ seq.length) :
    (State.init mkM seq).measurements.length = seq.length - 1
    ∧ (State.init mkM seq).resistance.length = seq.length
    ∧ (State.init mkM seq).temperature.length = seq.length
    ∧ (State.init mkM seq).power.length = seq.length
    ∧ ∀ st : State, Reachable mkM seq st → st.power[0]? = some (0 : ℝ) := by
  refine ⟨?_, ?_, ?_, ?_, ?_⟩
  · show ((pt_pairs seq).map mkM).length = seq.length - 1
    rw [List.length_map]
    unfold pt_pairs
    simp [List.length_zip, List.length_tail]
  · show (List.replicate seq.length (0 : ℝ)).length = seq.length
    simp
  · show (List.replicate seq.length (0 : ℝ)).length = seq.length
    simp
  · show (List.replicate seq.length (0 : ℝ)).length = seq.length
    simp
  · intro st hst
    induction hst with
    | init => exact init_power_getElem0 mkM seq (lt_of_lt_of_le two_pos h2)
    | scan st' chs flows _ ih => rw [scan_all_power_getElem0]; exact ih
    | tare st' ch _ ih => rw [tareRun_fst_power]; exact ih
    | set_off st' ch v _ ih => rw [set_offsetRun_fst_power]; exact ih

/-- Witness for `isoflux_channel_invariants` on a three-channel flow
sequence: 2 Measurement units, 3-element vectors, and power index 0 pinned
at 0.0 in every reachable state. -/
theorem isoflux_channel_invariants_witness :
    2 ≤ ([0, 1, 2] : List ℕ).length
    ∧ ((State.init mkM_demo [0, 1, 2]).measurements.length
          = ([0, 1, 2] : List ℕ).length - 1
       ∧ (State.init mkM_demo [0, 1, 2]).resistance.length
          = ([0, 1, 2] : List ℕ).length
       ∧ (State.init mkM_demo [0, 1, 2]).temperature.length
          = ([0, 1, 2] : List ℕ).length
       ∧ (State.init mkM_demo [0, 1, 2]).power.length
          = ([0, 1, 2] : List ℕ).length
       ∧ ∀ st : State, Reachable mkM_demo [0, 1, 2] st
           → st.power[0]? = some (0 : ℝ)) :=
  ⟨by norm_num, isoflux_channel_invariants mkM_demo [0, 1, 2] (by norm_num)⟩

end IsoFlux
